import Mathlib

/-!
# Scratchpad autosave core: a shallow embedding

This file embeds the dirty-state/debounce/flush core of
`src/desktop/src/components/Scratchpad.tsx` and proves the spec's
invariants about it.

The source is a React component.  Its observable autosave behaviour is
produced by seven `useEffect` hooks with dependency arrays, three
`useRef` cells, two `useState` cells (`value`, `dirty`), the props
(`workspaceId` and the loaded `content`), and `setTimeout` timers.  We
embed this faithfully as an explicit state record `CState` plus a
"commit" function that re-runs exactly the effects whose dependencies
changed, in declaration order, applying `setState` updates between
render passes (React batches `setState` calls made during an effect
pass into the next render).  Mutable refs are updated in place during a
pass; `setState` updates are collected and applied at the end of the
pass, as React does.

External collaborators are modelled as the spec describes them
(`useScratchpad` yields an optional loaded content that resets to
`none` when the workspace id changes; `useSaveScratchpad` yields a
stable mutation handle whose `mutate` records a `(wsId, content)` save
request and raises the pending flag, and whose completion — success or
failure — only lowers the pending flag; the component itself installs
no completion callbacks and never reads the mutation outcome).

Timers: `setTimeout` adds a timer capturing the `(workspaceId, value)`
of the render closure that armed it; `clearTimeout` removes it.  We log
arm and cancel calls in counters, keep the list of live timers, and
keep the id owned by the debounce effect's pending cleanup closure
(`curTimer`), since `clearTimeout` is also called on timers that have
already fired.
-/

set_option autoImplicit false

namespace Scratchpad

/-- A scheduled debounce timer: its identity and the `(workspaceId, value)`
pair captured by the effect closure that armed it
(`setTimeout(() => { saveMutation.mutate({ wsId: workspaceId, content: value }); ... }, 1000)`). -/
structure Timer where
  id : Nat
  wsId : String
  content : String
deriving Repr, DecidableEq

/-- A save request issued to the persistence service:
`saveMutation.mutate({ wsId, content })`. -/
structure SaveReq where
  wsId : String
  content : String
deriving Repr, DecidableEq

/-- The complete state of the component between commits: props, React
state, refs, the previous dependency snapshot of every effect (`none`
means the effect has not run yet), the timers, and the log of issued
save requests. -/
structure CState where
  /-- prop `workspaceId` -/
  workspaceId : String
  /-- `useScratchpad` data; `none` models `undefined` (loading) -/
  content : Option String
  /-- `useState` cell `value` -/
  value : String
  /-- `useState` cell `dirty` -/
  dirty : Bool
  /-- `valueRef.current` -/
  valueRef : String
  /-- `dirtyRef.current` -/
  dirtyRef : Bool
  /-- `workspaceIdRef.current` -/
  workspaceIdRef : String
  /-- deps `[value]` of the `valueRef` sync effect -/
  prevValueDep : Option String
  /-- deps `[dirty]` of the `dirtyRef` sync effect -/
  prevDirtyDep : Option Bool
  /-- deps `[workspaceId]` of the `workspaceIdRef` sync effect -/
  prevWsRefDep : Option String
  /-- deps `[workspaceId]` of the dirty-reset effect -/
  prevResetDep : Option String
  /-- deps `[content, dirty, workspaceId]` of the loaded-content sync effect -/
  prevSyncDep : Option (Option String × Bool × String)
  /-- deps `[value, dirty, workspaceId]` of the debounced-save effect
  (`saveMutation` is a stable handle, so it never changes) -/
  prevTimerDep : Option (String × Bool × String)
  /-- the timer id the debounce effect's pending cleanup closure would
  pass to `clearTimeout`; survives a fire, as the closure does -/
  curTimer : Option Nat
  /-- timers currently scheduled and not yet fired or cleared -/
  liveTimers : List Timer
  /-- fresh timer id supply -/
  nextTimerId : Nat
  /-- number of `setTimeout` calls so far -/
  timerArms : Nat
  /-- number of `clearTimeout` calls so far -/
  timerCancels : Nat
  /-- save requests issued so far, in issue order -/
  saves : List SaveReq
  /-- `saveMutation.isPending` -/
  savePending : Bool
deriving Repr, DecidableEq

/-- The cleanup closure of the last debounced-save effect run:
`return () => clearTimeout(timer)`.  Only exists when that run armed a
timer; calling it clears the armed timer (a no-op removal when the
timer has already fired, but still a `clearTimeout` call). -/
def cleanupTimer (s : CState) : CState :=
  match s.curTimer with
  | some tid =>
      { s with liveTimers := s.liveTimers.filter (fun t => t.id ≠ tid),
               timerCancels := s.timerCancels + 1,
               curTimer := none }
  | none => s

/-- The setup body of the debounced-save effect, after its cleanup ran:
`if (!dirty) return;` else `setTimeout(..., 1000)` capturing the render
values `(value, workspaceId)`.  Also records the new dependency
snapshot. -/
def armTimer (rv : String) (rd : Bool) (rw : String) (s : CState) : CState :=
  let s' := { s with prevTimerDep := some (rv, rd, rw) }
  if rd then
    { s' with liveTimers := s'.liveTimers ++ [⟨s'.nextTimerId, rw, rv⟩],
              curTimer := some s'.nextTimerId,
              nextTimerId := s'.nextTimerId + 1,
              timerArms := s'.timerArms + 1 }
  else s'

/-- One render-and-effects pass of the component.  `rv`, `rd`, `rw`,
`rc` are the values the render closure sees; effects run in declaration
order, each only when its dependency array changed; ref writes land
immediately, `setDirty` / `setValue` calls land at the end of the pass
(React batches them into the next render). -/
def runPass (s0 : CState) : CState :=
  let rv := s0.value
  let rd := s0.dirty
  let rw := s0.workspaceId
  let rc := s0.content
  -- useEffect(() => { valueRef.current = value; }, [value])
  let s1 := if s0.prevValueDep = some rv then s0 else
    { s0 with valueRef := rv, prevValueDep := some rv }
  -- useEffect(() => { dirtyRef.current = dirty; }, [dirty])
  let s2 := if s1.prevDirtyDep = some rd then s1 else
    { s1 with dirtyRef := rd, prevDirtyDep := some rd }
  -- useEffect(() => { workspaceIdRef.current = workspaceId; }, [workspaceId])
  let s3 := if s2.prevWsRefDep = some rw then s2 else
    { s2 with workspaceIdRef := rw, prevWsRefDep := some rw }
  -- the unmount-save effect has deps [saveMutation], a stable handle:
  -- it never re-runs after mount; its cleanup is modelled in `unmount`
  -- useEffect(() => { setDirty(false); }, [workspaceId])
  let s4 := if s3.prevResetDep = some rw then s3 else
    { s3 with prevResetDep := some rw }
  -- useEffect(() => { if (content !== undefined && !dirty) setValue(content); },
  --           [content, dirty, workspaceId])
  let s5 := if s4.prevSyncDep = some (rc, rd, rw) then s4 else
    { s4 with prevSyncDep := some (rc, rd, rw) }
  -- useEffect(() => { if (!dirty) return; const timer = setTimeout(...);
  --                   return () => clearTimeout(timer); },
  --           [value, dirty, workspaceId, saveMutation])
  let s6 := if s5.prevTimerDep = some (rv, rd, rw) then s5 else
    armTimer rv rd rw (cleanupTimer s5)
  -- batched setState updates: setDirty(false) from the dirty-reset
  -- effect when it ran, setValue(content) from the content-sync effect
  -- when it ran with content present and the render not dirty
  let s7 := if s3.prevResetDep = some rw then s6 else { s6 with dirty := false }
  if s4.prevSyncDep = some (rc, rd, rw) then s7
  else if rd then s7
  else match rc with
       | some c => { s7 with value := c }
       | none => s7

/-- Run render/effect passes to quiescence.  From any state produced by
an input event on a quiescent state, at most two passes change
anything, so four passes always reach the fixed point (further passes
are the identity once every dependency snapshot matches the state). -/
def commit (s : CState) : CState :=
  runPass (runPass (runPass (runPass s)))

/-- The component's state at the initial render for workspace `w`,
before any effect has run: `useState("")`, `useState(false)`, refs
seeded with the initial render values, no effect has a previous
dependency snapshot, the load is in flight (`data` undefined). -/
def initRaw (w : String) : CState :=
  { workspaceId := w
    content := none
    value := ""
    dirty := false
    valueRef := ""
    dirtyRef := false
    workspaceIdRef := w
    prevValueDep := none
    prevDirtyDep := none
    prevWsRefDep := none
    prevResetDep := none
    prevSyncDep := none
    prevTimerDep := none
    curTimer := none
    liveTimers := []
    nextTimerId := 0
    timerArms := 0
    timerCancels := 0
    saves := []
    savePending := false }

/-- The freshly mounted component: initial render plus the mount
effects. -/
def mount (w : String) : CState :=
  commit (initRaw w)

/-- A local edit event: the CodeMirror `onChange` callback
`(val) => { setValue(val); setDirty(true); }`, followed by the commit
it triggers. -/
def applyEdit (c : String) (s : CState) : CState :=
  commit { s with value := c, dirty := true }

/-- The load for the current workspace resolves with `c`:
`useScratchpad` data becomes `c`, triggering a commit. -/
def applyLoad (c : String) (s : CState) : CState :=
  commit { s with content := some c }

/-- The `workspaceId` prop changes to `w`: `useScratchpad` re-keys, so
its data is `undefined` again, and the component re-renders and
commits. -/
def applySwitch (w : String) (s : CState) : CState :=
  commit { s with workspaceId := w, content := none }

/-- A live debounce timer fires: its callback runs
`saveMutation.mutate({ wsId, content })` with the values captured at
arm time, then `setDirty(false)`, triggering a commit.  The fired timer
is no longer live (its cleanup closure's `clearTimeout` becomes a dead
call).  No-op when no timer is live. -/
def applyFire (s : CState) : CState :=
  match s.liveTimers with
  | [] => s
  | t :: rest =>
      commit { s with saves := s.saves ++ [⟨t.wsId, t.content⟩],
                      savePending := true,
                      dirty := false,
                      liveTimers := rest }

/-- An in-flight save settles (success when `ok`, failure otherwise):
the component installs no completion callbacks and never reads the
outcome, so either way only the pending flag drops. -/
def applySettle (_ok : Bool) (s : CState) : CState :=
  commit { s with savePending := false }

/-- The component unmounts: React runs every effect's cleanup in
declaration order.  The unmount-save effect's cleanup is
`if (dirtyRef.current) saveMutation.mutate({ wsId: workspaceIdRef.current, content: valueRef.current })`;
then the debounced-save effect's cleanup clears its timer. -/
def unmount (s : CState) : CState :=
  let s' :=
    if s.dirtyRef then
      { s with saves := s.saves ++ [⟨s.workspaceIdRef, s.valueRef⟩],
               savePending := true }
    else s
  cleanupTimer s'

/-- A burst of local edits applied in arrival order. -/
def runEdits (cs : List String) (s : CState) : CState :=
  cs.foldl (fun s c => applyEdit c s) s

/-- The footer status text:
`saveMutation.isPending ? "Saving..." : dirty ? "Unsaved" : "Saved"`. -/
def statusText (isPending dirty : Bool) : String :=
  if isPending then "Saving..." else if dirty then "Unsaved" else "Saved"

/-- The status the UI derives from the component state. -/
def status (s : CState) : String :=
  statusText s.savePending s.dirty

/-- Every effect's dependency snapshot matches the current state: no
effect would re-run on another render pass. -/
def DepsSynced (s : CState) : Prop :=
  s.prevValueDep = some s.value ∧
  s.prevDirtyDep = some s.dirty ∧
  s.prevWsRefDep = some s.workspaceId ∧
  s.prevResetDep = some s.workspaceId ∧
  s.prevSyncDep = some (s.content, s.dirty, s.workspaceId) ∧
  s.prevTimerDep = some (s.value, s.dirty, s.workspaceId)

instance (s : CState) : Decidable (DepsSynced s) := by
  unfold DepsSynced; infer_instance

/-- The ref cells agree with the state they mirror. -/
def RefsSynced (s : CState) : Prop :=
  s.valueRef = s.value ∧ s.dirtyRef = s.dirty ∧ s.workspaceIdRef = s.workspaceId

instance (s : CState) : Decidable (RefsSynced s) := by
  unfold RefsSynced; infer_instance

/-- Timer discipline in a quiescent state: while dirty there is exactly
one live timer, owned by the debounce effect's cleanup closure and
carrying the current `(workspaceId, value)`; while clean there is no
live timer and no pending cleanup. -/
def timerOk (s : CState) : Bool :=
  if s.dirty then
    match s.curTimer with
    | some tid => decide (s.liveTimers = [⟨tid, s.workspaceId, s.value⟩])
    | none => false
  else
    s.liveTimers.isEmpty && decide (s.curTimer = none)

/-- While clean, the buffer agrees with whatever content has loaded:
the content-sync effect has already applied it (or nothing has loaded
yet). -/
def loadSynced (s : CState) : Prop :=
  s.dirty = false → s.content = none ∨ s.content = some s.value

instance (s : CState) : Decidable (loadSynced s) := by
  unfold loadSynced; infer_instance

/-- The full quiescent-state invariant: holds after mount and is
preserved by every input event. -/
def Inv (s : CState) : Prop :=
  DepsSynced s ∧ RefsSynced s ∧ timerOk s = true ∧ loadSynced s

instance (s : CState) : Decidable (Inv s) := by
  unfold Inv; infer_instance

/-- The content of the last edit of a burst, starting from `v` when the
burst is empty. -/
def lastEdit (v : String) (cs : List String) : String :=
  cs.foldl (fun _ c => c) v

/-- The canonical quiescent clean state: not dirty, no live timer, no
pending cleanup, every snapshot and ref in agreement. -/
def cleanState (w : String) (rc : Option String) (v : String)
    (nid a k : Nat) (sv : List SaveReq) (p : Bool) : CState :=
  { workspaceId := w
    content := rc
    value := v
    dirty := false
    valueRef := v
    dirtyRef := false
    workspaceIdRef := w
    prevValueDep := some v
    prevDirtyDep := some false
    prevWsRefDep := some w
    prevResetDep := some w
    prevSyncDep := some (rc, false, w)
    prevTimerDep := some (v, false, w)
    curTimer := none
    liveTimers := []
    nextTimerId := nid
    timerArms := a
    timerCancels := k
    saves := sv
    savePending := p }

/-- The canonical quiescent dirty state: dirty, with exactly one live
timer carrying the current workspace id and value, owned by the
debounce effect's pending cleanup. -/
def dirtyState (w : String) (rc : Option String) (v : String)
    (tid nid a k : Nat) (sv : List SaveReq) (p : Bool) : CState :=
  { workspaceId := w
    content := rc
    value := v
    dirty := true
    valueRef := v
    dirtyRef := true
    workspaceIdRef := w
    prevValueDep := some v
    prevDirtyDep := some true
    prevWsRefDep := some w
    prevResetDep := some w
    prevSyncDep := some (rc, true, w)
    prevTimerDep := some (v, true, w)
    curTimer := some tid
    liveTimers := [⟨tid, w, v⟩]
    nextTimerId := nid
    timerArms := a
    timerCancels := k
    saves := sv
    savePending := p }

/-- A pass on a state none of whose effects would re-run changes
nothing. -/
theorem runPass_synced (s : CState) (h : DepsSynced s) : runPass s = s := by
  obtain ⟨h1, h2, h3, h4, h5, h6⟩ := h
  simp [runPass, h1, h2, h3, h4, h5, h6]

/-- Every state satisfying the invariant is a canonical clean or dirty
state. -/
theorem inv_shape (s : CState) (h : Inv s) :
    (s.dirty = false ∧ (s.content = none ∨ s.content = some s.value) ∧
      s = cleanState s.workspaceId s.content s.value s.nextTimerId
            s.timerArms s.timerCancels s.saves s.savePending) ∨
    (s.dirty = true ∧ ∃ tid,
      s = dirtyState s.workspaceId s.content s.value tid s.nextTimerId
            s.timerArms s.timerCancels s.saves s.savePending) := by
  obtain ⟨⟨h1, h2, h3, h4, h5, h6⟩, ⟨r1, r2, r3⟩, ht, hl⟩ := h
  cases s with
  | mk ws rc v d vr dr wr p1 p2 p3 p4 p5 p6 ct lt nid a k sv sp =>
    dsimp only at h1 h2 h3 h4 h5 h6 r1 r2 r3 ht hl ⊢
    cases d with
    | false =>
        rw [timerOk] at ht
        simp only [if_false, Bool.false_eq_true, Bool.and_eq_true, List.isEmpty_iff,
          decide_eq_true_eq] at ht
        obtain ⟨hlt, hct⟩ := ht
        subst r1 r2 r3 hlt hct
        exact Or.inl ⟨rfl, hl rfl, by simp [cleanState, h1, h2, h3, h4, h5, h6]⟩
    | true =>
        rw [timerOk] at ht
        cases ct with
        | none => simp at ht
        | some tid =>
          simp only [if_true, Bool.true_eq_false, decide_eq_true_eq] at ht
          subst r1 r2 r3 ht
          exact Or.inr ⟨rfl, tid, by simp [dirtyState, h1, h2, h3, h4, h5, h6]⟩

/-- An edit from a clean state makes the state dirty, stores the new
content, and arms a fresh timer carrying it (one `setTimeout`, no
`clearTimeout`, since the previous debounce effect run armed
nothing). -/
theorem applyEdit_clean (w : String) (rc : Option String) (v c : String)
    (nid a k : Nat) (sv : List SaveReq) (p : Bool) :
    applyEdit c (cleanState w rc v nid a k sv p) =
      dirtyState w rc c nid (nid + 1) (a + 1) k sv p := by
  by_cases hv : v = c <;>
    simp [applyEdit, commit, runPass, cleanState, dirtyState, cleanupTimer, armTimer, hv]

/-- An edit that repeats the current buffer content while already dirty
changes nothing: every dependency array is unchanged, so no effect
re-runs and in particular the pending timer is not reset. -/
theorem applyEdit_dirty_same (w : String) (rc : Option String) (v : String)
    (tid nid a k : Nat) (sv : List SaveReq) (p : Bool) :
    applyEdit v (dirtyState w rc v tid nid a k sv p) =
      dirtyState w rc v tid nid a k sv p := by
  simp [applyEdit, commit, runPass, dirtyState, cleanupTimer, armTimer]

/-- An edit with fresh content while already dirty stores the new
content, clears the pending timer and arms a new one carrying the new
content (one `clearTimeout`, one `setTimeout`). -/
theorem applyEdit_dirty_new (w : String) (rc : Option String) (v c : String)
    (tid nid a k : Nat) (sv : List SaveReq) (p : Bool) (hv : ¬ v = c) :
    applyEdit c (dirtyState w rc v tid nid a k sv p) =
      dirtyState w rc c nid (nid + 1) (a + 1) (k + 1) sv p := by
  simp [applyEdit, commit, runPass, dirtyState, cleanupTimer, armTimer, hv]

/-- A load resolving on a clean state replaces the buffer with the
loaded content (the content-sync effect applies it; when the data is
unchanged there is no re-render, but then the clean buffer already
holds it). -/
theorem applyLoad_clean (w : String) (rc : Option String) (v c : String)
    (nid a k : Nat) (sv : List SaveReq) (p : Bool)
    (h : rc = none ∨ rc = some v) :
    applyLoad c (cleanState w rc v nid a k sv p) =
      cleanState w (some c) c nid a k sv p := by
  rcases h with h | h <;> subst h <;> by_cases hv : v = c <;>
    simp [applyLoad, commit, runPass, cleanState, cleanupTimer, armTimer, hv]

/-- A load resolving on a dirty state is ignored: the content-sync
effect sees the dirty flag and leaves the buffer, the timer and the
save log alone. -/
theorem applyLoad_dirty (w : String) (rc : Option String) (v c : String)
    (tid nid a k : Nat) (sv : List SaveReq) (p : Bool) :
    applyLoad c (dirtyState w rc v tid nid a k sv p) =
      dirtyState w (some c) v tid nid a k sv p := by
  by_cases h : rc = some c
  · subst h
    simp [applyLoad, commit, runPass, dirtyState, cleanupTimer, armTimer]
  · simp [applyLoad, commit, runPass, dirtyState, cleanupTimer, armTimer, h]

/-- Firing with no live timer is impossible; the transition is a
no-op. -/
theorem applyFire_clean (w : String) (rc : Option String) (v : String)
    (nid a k : Nat) (sv : List SaveReq) (p : Bool) :
    applyFire (cleanState w rc v nid a k sv p) = cleanState w rc v nid a k sv p :=
  rfl

/-- The timer firing on a dirty state issues exactly one save request
carrying the captured (current) workspace id and buffer content, raises
the pending flag, and clears the dirty flag; the re-render then runs
the content-sync effect, which, no longer blocked by the dirty flag,
resets the buffer to whatever content is loaded (if any), and the
debounce effect's cleanup makes one dead `clearTimeout` call. -/
theorem applyFire_dirty (w : String) (rc : Option String) (v : String)
    (tid nid a k : Nat) (sv : List SaveReq) (p : Bool) :
    applyFire (dirtyState w rc v tid nid a k sv p) =
      cleanState w rc (rc.getD v) nid a (k + 1) (sv ++ [⟨w, v⟩]) true := by
  cases rc with
  | none =>
      simp [applyFire, commit, runPass, dirtyState, cleanState, cleanupTimer, armTimer]
  | some c =>
      by_cases hv : v = c <;>
        simp [applyFire, commit, runPass, dirtyState, cleanState, cleanupTimer, armTimer, hv]

/-- A save settling (with either outcome) on a clean state only lowers
the pending flag. -/
theorem applySettle_clean (ok : Bool) (w : String) (rc : Option String) (v : String)
    (nid a k : Nat) (sv : List SaveReq) (p : Bool) :
    applySettle ok (cleanState w rc v nid a k sv p) =
      cleanState w rc v nid a k sv false := by
  simp [applySettle, commit, runPass, cleanState, cleanupTimer, armTimer]

/-- A save settling (with either outcome) on a dirty state only lowers
the pending flag. -/
theorem applySettle_dirty (ok : Bool) (w : String) (rc : Option String) (v : String)
    (tid nid a k : Nat) (sv : List SaveReq) (p : Bool) :
    applySettle ok (dirtyState w rc v tid nid a k sv p) =
      dirtyState w rc v tid nid a k sv false := by
  simp [applySettle, commit, runPass, dirtyState, cleanupTimer, armTimer]

/-- Unmounting a clean state changes nothing at all: the unmount-save
cleanup sees a clean ref and there is no timer to clear. -/
theorem unmount_clean (w : String) (rc : Option String) (v : String)
    (nid a k : Nat) (sv : List SaveReq) (p : Bool) :
    unmount (cleanState w rc v nid a k sv p) = cleanState w rc v nid a k sv p :=
  rfl

/-- Unmounting a dirty state issues exactly one save request with the
ref-captured (current) workspace id and buffer content, and clears the
pending timer without letting it fire. -/
theorem unmount_dirty (w : String) (rc : Option String) (v : String)
    (tid nid a k : Nat) (sv : List SaveReq) (p : Bool) :
    (unmount (dirtyState w rc v tid nid a k sv p)).saves = sv ++ [⟨w, v⟩] ∧
    (unmount (dirtyState w rc v tid nid a k sv p)).liveTimers = [] ∧
    (unmount (dirtyState w rc v tid nid a k sv p)).savePending = true ∧
    (unmount (dirtyState w rc v tid nid a k sv p)).timerCancels = k + 1 := by
  simp [unmount, dirtyState, cleanupTimer]

/-- A burst of edits on a dirty state stays dirty with the last edit's
content in the buffer and in the single live timer, issues no save, and
makes exactly as many `clearTimeout` calls as `setTimeout` calls
(repeated identical content re-runs nothing; fresh content cancels and
re-arms). -/
theorem runEdits_dirty (cs : List String) :
    ∀ (w : String) (rc : Option String) (v : String) (tid nid a k : Nat)
      (sv : List SaveReq) (p : Bool),
    ∃ tid' nid' d,
      runEdits cs (dirtyState w rc v tid nid a k sv p) =
        dirtyState w rc (lastEdit v cs) tid' nid' (a + d) (k + d) sv p := by
  induction cs with
  | nil =>
      intro w rc v tid nid a k sv p
      exact ⟨tid, nid, 0, by simp [runEdits, lastEdit]⟩
  | cons c cs ih =>
      intro w rc v tid nid a k sv p
      by_cases hv : v = c
      · subst hv
        obtain ⟨tid', nid', d, hd⟩ := ih w rc v tid nid a k sv p
        refine ⟨tid', nid', d, ?_⟩
        simpa only [runEdits, List.foldl_cons, applyEdit_dirty_same] using hd
      · obtain ⟨tid', nid', d, hd⟩ := ih w rc c nid (nid + 1) (a + 1) (k + 1) sv p
        refine ⟨tid', nid', d + 1, ?_⟩
        have ha : a + 1 + d = a + (d + 1) := by omega
        have hk : k + 1 + d = k + (d + 1) := by omega
        simp only [runEdits, List.foldl_cons] at hd ⊢
        rw [applyEdit_dirty_new w rc v c tid nid a k sv p hv, hd, ha, hk]
        rfl

/-- A nonempty burst of edits on a clean state: the state ends dirty
with the last edit's content, no save is issued, and the
`clearTimeout` count rises by exactly one less than the `setTimeout`
count (the first arm has nothing to cancel). -/
theorem runEdits_clean (w : String) (rc : Option String) (v : String)
    (nid a k : Nat) (sv : List SaveReq) (p : Bool) (c : String) (cs : List String) :
    ∃ tid' nid' d,
      runEdits (c :: cs) (cleanState w rc v nid a k sv p) =
        dirtyState w rc (lastEdit c cs) tid' nid' (a + 1 + d) (k + d) sv p := by
  obtain ⟨tid', nid', d, hd⟩ := runEdits_dirty cs w rc c nid (nid + 1) (a + 1) k sv p
  refine ⟨tid', nid', d, ?_⟩
  simp only [runEdits, List.foldl_cons] at hd ⊢
  rw [applyEdit_clean w rc v c nid a k sv p, hd]

/-- Canonical clean states whose buffer agrees with the loaded content
satisfy the invariant. -/
theorem inv_cleanState (w : String) (rc : Option String) (v : String)
    (nid a k : Nat) (sv : List SaveReq) (p : Bool) (h : rc = none ∨ rc = some v) :
    Inv (cleanState w rc v nid a k sv p) := by
  refine ⟨⟨rfl, rfl, rfl, rfl, rfl, rfl⟩, ⟨rfl, rfl, rfl⟩, ?_, fun _ => h⟩
  simp [timerOk, cleanState]

/-- Canonical dirty states satisfy the invariant. -/
theorem inv_dirtyState (w : String) (rc : Option String) (v : String)
    (tid nid a k : Nat) (sv : List SaveReq) (p : Bool) :
    Inv (dirtyState w rc v tid nid a k sv p) := by
  refine ⟨⟨rfl, rfl, rfl, rfl, rfl, rfl⟩, ⟨rfl, rfl, rfl⟩, ?_, ?_⟩
  · simp [timerOk, dirtyState]
  · intro h
    simp [dirtyState] at h

/-- Mounting yields the canonical clean state with an empty buffer and
the load still in flight. -/
theorem mount_eq (w : String) : mount w = cleanState w none "" 0 0 0 [] false := by
  simp [mount, initRaw, commit, runPass, cleanState, cleanupTimer, armTimer]

/-- Switching workspace while dirty: the dirty-reset effect clears the
dirty flag and the debounce effect's cleanup cancels the pending timer,
but no save request is issued — the outgoing document's unsaved edit is
dropped.  (A transient timer armed for the new workspace during the
first pass is cancelled in the second, before it could ever fire.) -/
theorem applySwitch_dirty (w' w : String) (rc : Option String) (v : String)
    (tid nid a k : Nat) (sv : List SaveReq) (p : Bool) (hw : ¬ w = w') :
    applySwitch w' (dirtyState w rc v tid nid a k sv p) =
      cleanState w' none v (nid + 1) (a + 1) (k + 2) sv p := by
  simp [applySwitch, commit, runPass, dirtyState, cleanState, cleanupTimer, armTimer, hw]

/-- The last edit of a burst ending in `c` is `c`. -/
theorem lastEdit_append (v : String) (xs : List String) (c : String) :
    lastEdit v (xs ++ [c]) = c := by
  simp [lastEdit, List.foldl_append]

/-- A nonempty edit burst written with its last edit explicit. -/
theorem runEdits_clean_last (w : String) (rc : Option String) (v : String)
    (nid a k : Nat) (sv : List SaveReq) (p : Bool) (cs : List String) (c : String) :
    ∃ tid' nid' d,
      runEdits (cs ++ [c]) (cleanState w rc v nid a k sv p) =
        dirtyState w rc c tid' nid' (a + 1 + d) (k + d) sv p := by
  cases cs with
  | nil =>
      obtain ⟨tid', nid', d, h⟩ := runEdits_clean w rc v nid a k sv p c []
      exact ⟨tid', nid', d, by simpa [lastEdit] using h⟩
  | cons c0 cs' =>
      obtain ⟨tid', nid', d, h⟩ := runEdits_clean w rc v nid a k sv p c0 (cs' ++ [c])
      refine ⟨tid', nid', d, ?_⟩
      rw [show (c0 :: cs') ++ [c] = c0 :: (cs' ++ [c]) from rfl, h, lastEdit_append]

/-- C1 (code bug evidence): per the spec, changing the active document
identifier while dirty must issue a save with the outgoing document's
identifier and last edited content before resetting state.  Evaluating
the code at the failing input — load `"hello"`, edit to
`"hello world"` in workspace `"ws1"` (dirty, timer pending), then
switch to `"ws2"` before the timer fires — shows the switch issues no
save request at all: the dirty flag is reset and the pending timer is
cancelled, and the outgoing document's last edit is silently lost. -/
theorem switch_while_dirty_loses_edit :
    (applyEdit "hello world" (applyLoad "hello" (mount "ws1"))).dirty = true ∧
    (applyEdit "hello world" (applyLoad "hello" (mount "ws1"))).value = "hello world" ∧
    (applyEdit "hello world" (applyLoad "hello" (mount "ws1"))).workspaceId = "ws1" ∧
    (applySwitch "ws2" (applyEdit "hello world" (applyLoad "hello" (mount "ws1")))).saves = [] ∧
    (applySwitch "ws2" (applyEdit "hello world" (applyLoad "hello" (mount "ws1")))).dirty = false ∧
    (applySwitch "ws2" (applyEdit "hello world" (applyLoad "hello" (mount "ws1")))).liveTimers = [] := by
  have e1 : applyLoad "hello" (mount "ws1")
      = cleanState "ws1" (some "hello") "hello" 0 0 0 [] false := by
    rw [mount_eq, applyLoad_clean "ws1" none "" "hello" 0 0 0 [] false (Or.inl rfl)]
  have e2 : applyEdit "hello world" (applyLoad "hello" (mount "ws1"))
      = dirtyState "ws1" (some "hello") "hello world" 0 1 1 0 [] false := by
    rw [e1, applyEdit_clean]
  have e3 : applySwitch "ws2" (applyEdit "hello world" (applyLoad "hello" (mount "ws1")))
      = cleanState "ws2" none "hello world" 2 2 2 [] false := by
    rw [e2, applySwitch_dirty "ws2" "ws1" (some "hello") "hello world" 0 1 1 0 [] false
      (by decide)]
  rw [e3, e2]
  exact ⟨rfl, rfl, rfl, rfl, rfl, rfl⟩

/-- C2: when the system is torn down while the dirty flag is set,
exactly one save request is issued synchronously at teardown, carrying
the last known workspace identifier and last edited buffer content as
captured by the ref cells, even though the debounce timer has not
fired (it is cancelled, unfired, by the cleanup). -/
theorem teardown_flushes_dirty_buffer (s : CState) (hInv : Inv s) (hd : s.dirty = true) :
    (unmount s).saves = s.saves ++ [⟨s.workspaceId, s.value⟩] ∧
    (unmount s).liveTimers = [] ∧
    (unmount s).savePending = true := by
  rcases inv_shape s hInv with ⟨hf, _, _⟩ | ⟨_, tid, hs⟩
  · rw [hf] at hd; exact absurd hd (by simp)
  · rw [hs]
    have h := unmount_dirty s.workspaceId s.content s.value tid s.nextTimerId
      s.timerArms s.timerCancels s.saves s.savePending
    exact ⟨h.1, h.2.1, h.2.2.1⟩

/-- Witness for C2 at a concrete run: mount `"w"`, edit to `"a"`,
unmount. -/
theorem teardown_flushes_dirty_buffer_witness :
    (unmount (applyEdit "a" (mount "w"))).saves
        = (applyEdit "a" (mount "w")).saves
            ++ [⟨(applyEdit "a" (mount "w")).workspaceId, (applyEdit "a" (mount "w")).value⟩] ∧
    (unmount (applyEdit "a" (mount "w"))).liveTimers = [] ∧
    (unmount (applyEdit "a" (mount "w"))).savePending = true :=
  teardown_flushes_dirty_buffer (applyEdit "a" (mount "w"))
    (by rw [mount_eq, applyEdit_clean]; exact inv_dirtyState "w" none "a" 0 1 1 0 [] false)
    (by rw [mount_eq, applyEdit_clean]; rfl)

/-- C3: for any burst of edits arriving within each other's quiet
period (no timer fire interleaved), no save is issued during the burst,
and the single debounce-triggered save that follows carries the current
workspace identifier and the content of the last edit. -/
theorem debounce_coalesces_to_last_edit (s : CState) (hInv : Inv s) (hcl : s.dirty = false)
    (cs : List String) (c : String) :
    (runEdits (cs ++ [c]) s).saves = s.saves ∧
    (applyFire (runEdits (cs ++ [c]) s)).saves = s.saves ++ [⟨s.workspaceId, c⟩] := by
  rcases inv_shape s hInv with ⟨_, _, hs⟩ | ⟨hd, _⟩
  · rw [hs]
    obtain ⟨tid', nid', d, hrun⟩ := runEdits_clean_last s.workspaceId s.content s.value
      s.nextTimerId s.timerArms s.timerCancels s.saves s.savePending cs c
    rw [hrun, applyFire_dirty]
    exact ⟨rfl, rfl⟩
  · rw [hd] at hcl; exact absurd hcl (by simp)

/-- Witness for C3 at a concrete run: mount `"w"`, edits `"a"` then
`"b"`, timer fires. -/
theorem debounce_coalesces_to_last_edit_witness :
    (runEdits (["a"] ++ ["b"]) (mount "w")).saves = (mount "w").saves ∧
    (applyFire (runEdits (["a"] ++ ["b"]) (mount "w"))).saves
        = (mount "w").saves ++ [⟨(mount "w").workspaceId, "b"⟩] :=
  debounce_coalesces_to_last_edit (mount "w")
    (by rw [mount_eq]; exact inv_cleanState "w" none "" 0 0 0 [] false (Or.inl rfl))
    (by rw [mount_eq]; rfl) ["a"] "b"

/-- C4: a resolving load replaces the buffer exactly when the dirty
flag is down; while dirty the loaded content is ignored — the buffer,
the dirty flag and the save log are untouched. -/
theorem load_respects_dirty_flag (s : CState) (hInv : Inv s) (c : String) :
    (s.dirty = false → (applyLoad c s).value = c) ∧
    (s.dirty = true → (applyLoad c s).value = s.value ∧ (applyLoad c s).dirty = true ∧
      (applyLoad c s).saves = s.saves) := by
  rcases inv_shape s hInv with ⟨hf, hload, hs⟩ | ⟨hd, tid, hs⟩
  · constructor
    · intro _
      rw [hs, applyLoad_clean s.workspaceId s.content s.value c s.nextTimerId
        s.timerArms s.timerCancels s.saves s.savePending hload]
      rfl
    · intro h; rw [hf] at h; exact absurd h (by simp)
  · constructor
    · intro h; rw [hd] at h; exact absurd h (by simp)
    · intro _
      rw [hs, applyLoad_dirty]
      exact ⟨rfl, rfl, rfl⟩

/-- Witness for C4 at concrete runs: a load on the freshly mounted
(clean) state. -/
theorem load_respects_dirty_flag_witness :
    ((mount "w").dirty = false → (applyLoad "x" (mount "w")).value = "x") ∧
    ((mount "w").dirty = true → (applyLoad "x" (mount "w")).value = (mount "w").value ∧
      (applyLoad "x" (mount "w")).dirty = true ∧
      (applyLoad "x" (mount "w")).saves = (mount "w").saves) :=
  load_respects_dirty_flag (mount "w")
    (by rw [mount_eq]; exact inv_cleanState "w" none "" 0 0 0 [] false (Or.inl rfl)) "x"

/-- C5: a debounce-triggered flush issues its save request and clears
the dirty flag immediately, while the request is still pending; when
the request later settles as a failure, the dirty flag stays down and
no further save request is issued (no retry, no re-flag). -/
theorem dirty_cleared_on_issue_not_completion (s : CState) (hInv : Inv s)
    (hd : s.dirty = true) :
    (applyFire s).saves = s.saves ++ [⟨s.workspaceId, s.value⟩] ∧
    (applyFire s).dirty = false ∧
    (applyFire s).savePending = true ∧
    (applySettle false (applyFire s)).dirty = false ∧
    (applySettle false (applyFire s)).saves = s.saves ++ [⟨s.workspaceId, s.value⟩] := by
  rcases inv_shape s hInv with ⟨hf, _, _⟩ | ⟨_, tid, hs⟩
  · rw [hf] at hd; exact absurd hd (by simp)
  · rw [hs, applyFire_dirty, applySettle_clean]
    exact ⟨rfl, rfl, rfl, rfl, rfl⟩

/-- Witness for C5 at a concrete run: mount `"w"`, edit to `"a"`, the
timer fires, the save fails. -/
theorem dirty_cleared_on_issue_not_completion_witness :
    (applyFire (applyEdit "a" (mount "w"))).saves
        = (applyEdit "a" (mount "w")).saves
            ++ [⟨(applyEdit "a" (mount "w")).workspaceId, (applyEdit "a" (mount "w")).value⟩] ∧
    (applyFire (applyEdit "a" (mount "w"))).dirty = false ∧
    (applyFire (applyEdit "a" (mount "w"))).savePending = true ∧
    (applySettle false (applyFire (applyEdit "a" (mount "w")))).dirty = false ∧
    (applySettle false (applyFire (applyEdit "a" (mount "w")))).saves
        = (applyEdit "a" (mount "w")).saves
            ++ [⟨(applyEdit "a" (mount "w")).workspaceId, (applyEdit "a" (mount "w")).value⟩] :=
  dirty_cleared_on_issue_not_completion (applyEdit "a" (mount "w"))
    (by rw [mount_eq, applyEdit_clean]; exact inv_dirtyState "w" none "a" 0 1 1 0 [] false)
    (by rw [mount_eq, applyEdit_clean]; rfl)

/-- C6: over a burst of edits arriving within the quiet period, the
number of `clearTimeout` calls made is exactly one less than the number
of `setTimeout` calls, and after every prefix of the burst at most one
timer is live. -/
theorem single_live_timer_cancel_count (s : CState) (hInv : Inv s) (hcl : s.dirty = false)
    (c : String) (cs : List String) :
    (runEdits (c :: cs) s).timerArms + s.timerCancels
      = (runEdits (c :: cs) s).timerCancels + s.timerArms + 1 ∧
    (∀ pre suf : List String, c :: cs = pre ++ suf →
      (runEdits pre s).liveTimers.length ≤ 1) := by
  rcases inv_shape s hInv with ⟨_, _, hs⟩ | ⟨hd, _⟩
  · constructor
    · obtain ⟨tid', nid', d, hrun⟩ := runEdits_clean s.workspaceId s.content s.value
        s.nextTimerId s.timerArms s.timerCancels s.saves s.savePending c cs
      rw [hs, hrun]
      show s.timerArms + 1 + d + s.timerCancels = s.timerCancels + d + s.timerArms + 1
      omega
    · intro pre suf hps
      cases pre with
      | nil =>
          rw [show runEdits [] s = s from rfl, hs]
          simp [cleanState]
      | cons p ps =>
          have hcp : c = p ∧ cs = ps ++ suf := by
            constructor <;> injection hps
          obtain ⟨hc, _⟩ := hcp
          subst hc
          obtain ⟨tid', nid', d, hrun⟩ := runEdits_clean s.workspaceId s.content s.value
            s.nextTimerId s.timerArms s.timerCancels s.saves s.savePending c ps
          rw [hs, hrun]
          simp [dirtyState]
  · rw [hd] at hcl; exact absurd hcl (by simp)

/-- Witness for C6 at a concrete run: mount `"w"`, edits `"a"` then
`"b"`. -/
theorem single_live_timer_cancel_count_witness :
    (runEdits ("a" :: ["b"]) (mount "w")).timerArms + (mount "w").timerCancels
      = (runEdits ("a" :: ["b"]) (mount "w")).timerCancels + (mount "w").timerArms + 1 ∧
    (∀ pre suf : List String, "a" :: ["b"] = pre ++ suf →
      (runEdits pre (mount "w")).liveTimers.length ≤ 1) :=
  single_live_timer_cancel_count (mount "w")
    (by rw [mount_eq]; exact inv_cleanState "w" none "" 0 0 0 [] false (Or.inl rfl))
    (by rw [mount_eq]; rfl) "a" ["b"]

/-- C7: flushing while clean is a complete no-op on both flush paths:
a timer fire cannot happen (no timer is live) and changes nothing, and
the teardown flush issues no save and leaves the whole state
unchanged. -/
theorem flush_noop_when_clean (s : CState) (hInv : Inv s) (hcl : s.dirty = false) :
    applyFire s = s ∧ unmount s = s := by
  rcases inv_shape s hInv with ⟨_, _, hs⟩ | ⟨hd, _⟩
  · constructor
    · rw [hs]
      exact applyFire_clean s.workspaceId s.content s.value s.nextTimerId
        s.timerArms s.timerCancels s.saves s.savePending
    · rw [hs]
      exact unmount_clean s.workspaceId s.content s.value s.nextTimerId
        s.timerArms s.timerCancels s.saves s.savePending
  · rw [hd] at hcl; exact absurd hcl (by simp)

/-- Witness for C7 at the freshly mounted state. -/
theorem flush_noop_when_clean_witness :
    applyFire (mount "w") = mount "w" ∧ unmount (mount "w") = mount "w" :=
  flush_noop_when_clean (mount "w")
    (by rw [mount_eq]; exact inv_cleanState "w" none "" 0 0 0 [] false (Or.inl rfl))
    (by rw [mount_eq]; rfl)

/-- C8: any string whatsoever is accepted by the edit intake: it
replaces the buffer, raises the dirty flag unconditionally, and leaves
the debounce scheduler armed with one live timer carrying the current
workspace identifier and the new content (a repeated identical edit
leaves the previously armed timer in place). -/
theorem edit_accepts_any_string (s : CState) (hInv : Inv s) (c : String) :
    (applyEdit c s).value = c ∧ (applyEdit c s).dirty = true ∧
    ∃ t : Timer, (applyEdit c s).liveTimers = [t] ∧
      t.wsId = s.workspaceId ∧ t.content = c := by
  rcases inv_shape s hInv with ⟨_, _, hs⟩ | ⟨_, tid, hs⟩
  · rw [hs, applyEdit_clean]
    exact ⟨rfl, rfl, ⟨s.nextTimerId, s.workspaceId, c⟩, rfl, rfl, rfl⟩
  · by_cases hv : s.value = c
    · rw [hs, hv, applyEdit_dirty_same]
      exact ⟨rfl, rfl, ⟨tid, s.workspaceId, c⟩, rfl, rfl, rfl⟩
    · rw [hs, applyEdit_dirty_new s.workspaceId s.content s.value c tid s.nextTimerId
        s.timerArms s.timerCancels s.saves s.savePending hv]
      exact ⟨rfl, rfl, ⟨s.nextTimerId, s.workspaceId, c⟩, rfl, rfl, rfl⟩

/-- Witness for C8 at the freshly mounted state and the edit `"x"`. -/
theorem edit_accepts_any_string_witness :
    (applyEdit "x" (mount "w")).value = "x" ∧ (applyEdit "x" (mount "w")).dirty = true ∧
    ∃ t : Timer, (applyEdit "x" (mount "w")).liveTimers = [t] ∧
      t.wsId = (mount "w").workspaceId ∧ t.content = "x" :=
  edit_accepts_any_string (mount "w")
    (by rw [mount_eq]; exact inv_cleanState "w" none "" 0 0 0 [] false (Or.inl rfl)) "x"

/-- C9: the footer status is a tri-state function of the pair
(save-pending, dirty flag): `Saving...` whenever a save is pending —
taking precedence over the dirty flag — otherwise `Unsaved` when dirty,
otherwise `Saved`. -/
theorem status_is_tristate (s : CState) :
    (s.savePending = true → status s = "Saving...") ∧
    (s.savePending = false → s.dirty = true → status s = "Unsaved") ∧
    (s.savePending = false → s.dirty = false → status s = "Saved") := by
  unfold status statusText
  refine ⟨fun h => ?_, fun h1 h2 => ?_, fun h1 h2 => ?_⟩
  · rw [h]; simp
  · rw [h1, h2]; simp
  · rw [h1, h2]; simp

/-- Witness for C9 at concrete states realising all three branches:
save in flight after a fire, dirty after an edit, and freshly
mounted. -/
theorem status_is_tristate_witness :
    status (applyFire (applyEdit "a" (mount "w"))) = "Saving..." ∧
    status (applyEdit "a" (mount "w")) = "Unsaved" ∧
    status (mount "w") = "Saved" :=
  ⟨(status_is_tristate (applyFire (applyEdit "a" (mount "w")))).1
      (by rw [mount_eq, applyEdit_clean, applyFire_dirty]; rfl),
   (status_is_tristate (applyEdit "a" (mount "w"))).2.1
      (by rw [mount_eq, applyEdit_clean]; rfl) (by rw [mount_eq, applyEdit_clean]; rfl),
   (status_is_tristate (mount "w")).2.2 (by rw [mount_eq]; rfl) (by rw [mount_eq]; rfl)⟩

/-- C10: once a debounced save has fired and cleared the dirty flag,
any load result that resolves afterwards — however stale — replaces the
buffer with the loaded content, and no save request or comparison
guards against it: the dirty flag was the sole protection. -/
theorem stale_load_after_flush_overwrites (s : CState) (hInv : Inv s)
    (hd : s.dirty = true) (c : String) :
    (applyLoad c (applyFire s)).value = c ∧
    (applyLoad c (applyFire s)).saves = (applyFire s).saves := by
  rcases inv_shape s hInv with ⟨hf, _, _⟩ | ⟨_, tid, hs⟩
  · rw [hf] at hd; exact absurd hd (by simp)
  · have hgd : s.content = none ∨ s.content = some (s.content.getD s.value) := by
      cases s.content with
      | none => exact Or.inl rfl
      | some x => exact Or.inr rfl
    rw [hs, applyFire_dirty, applyLoad_clean _ _ _ _ _ _ _ _ _ hgd]
    exact ⟨rfl, rfl⟩

/-- Witness for C10 at a concrete run: load `"old"`, edit to `"new"`,
the timer fires (saving `"new"`), then a stale load of `"old"`
resolves. -/
theorem stale_load_after_flush_overwrites_witness :
    (applyLoad "old" (applyFire (applyEdit "new" (applyLoad "old" (mount "w"))))).value = "old" ∧
    (applyLoad "old" (applyFire (applyEdit "new" (applyLoad "old" (mount "w"))))).saves
        = (applyFire (applyEdit "new" (applyLoad "old" (mount "w")))).saves :=
  stale_load_after_flush_overwrites (applyEdit "new" (applyLoad "old" (mount "w")))
    (by rw [mount_eq, applyLoad_clean "w" none "" "old" 0 0 0 [] false (Or.inl rfl),
          applyEdit_clean]
        exact inv_dirtyState "w" (some "old") "new" 0 1 1 0 [] false)
    (by rw [mount_eq, applyLoad_clean "w" none "" "old" 0 0 0 [] false (Or.inl rfl),
          applyEdit_clean]
        rfl)
    "old"

end Scratchpad
